import Mathlib

/-!
Verification of the meat-shrink tracking application's validation and
submission logic.

The pages under `app/` are the source of truth for the submission workflow
(`01_Record_Shrink.py`), the reports filter construction (`02_Reports.py`)
and the export button handlers (`03_Exports.py`).  The validator module
`lib/validators.py` is referenced by the pages but its body is not part of
the available sources, so the three validators are modelled from the
specification's description of them; each such definition says so in its
doc comment.

Weights and prices are modelled as rationals (the UI hands the validators
decimal numbers), timestamps as integers (seconds on a single global
timeline), and Python datetimes as a wall-clock reading paired with an
optional fixed UTC offset.
-/

set_option autoImplicit false

namespace MeatShrink

/-- Product categories, as enumerated on the Reports page
(`02_Reports.py` line 79). -/
inductive Category where
  | beef | pork | poultry | seafood | lambGoat | veal | deliSmoked | valueAdded
  deriving DecidableEq, Repr

/-- Shrink event types, as enumerated on the Reports page
(`02_Reports.py` line 81): Spoilage, Trim/Waste, Theft, Damage, Markdown,
Rework, Return. -/
inductive EventType where
  | spoilage | trimWaste | theft | damage | markdown | rework | ret
  deriving DecidableEq, Repr

/-- Modelled from the spec: `validateWeight(weight, category)` of
`lib/validators.py` (not under the available sources).  It rejects any
weight outside the absolute bound 0.001–500.0 lbs regardless of category,
returns success together with a non-empty warning message when the weight
is inside the absolute bound but outside the category's typical band, and
returns plain success (empty message) inside the band.  The per-category
band table itself is not enumerated anywhere, so it is a parameter
`band`, mapping each category to the inclusive ends of its typical
range. -/
def validate_weight (band : Category → ℚ × ℚ) (w : ℚ) (c : Category) :
    Bool × String :=
  if w < 1/1000 ∨ w > 500 then
    (false, "Weight must be between 0.001 and 500.0 lbs")
  else if w < (band c).1 ∨ w > (band c).2 then
    (true, "Weight is unusual for this category")
  else
    (true, "")

/-- Modelled from the spec: `validatePrices(unitCost, unitPrice, eventType)`
of `lib/validators.py` (not under the available sources).  Cost and price
must both be non-negative, and a cost of zero together with a price of
zero is rejected as meaningless; for markdown events a price below cost is
expected and not flagged.  The further per-event-type plausibility
thresholds are left open by the spec (its §9 open question) and are not
modelled. -/
def validate_prices (uc up : ℚ) (ev : EventType) : Bool × String :=
  if uc < 0 ∨ up < 0 then
    (false, "Cost and price must be non-negative")
  else if uc = 0 ∧ up = 0 then
    (false, "Cost and price of zero together is meaningless")
  else
    (true, "")

/-- Modelled from the spec: `validateDatetime(timestampUtc)` of
`lib/validators.py` (not under the available sources).  It fails when the
timestamp is more than a small clock-skew tolerance in the future or more
than a retention window in the past; the concrete tolerance, retention
window and current instant are not fixed by the spec, so they are the
parameters `tol`, `retention` and `now` (seconds).  The validator itself is
role-agnostic: it only reports pass/fail plus a message. -/
def validate_datetime (now tol retention ts : ℤ) : Bool × String :=
  if ts > now + tol then
    (false, "Timestamp is in the future")
  else if ts < now - retention then
    (false, "Timestamp is older than the retention window")
  else
    (true, "")

/-- A Python `datetime`: a wall-clock reading (seconds) plus an optional
fixed timezone as an offset from UTC (seconds); `tz = none` is a naive
datetime. -/
structure PyDatetime where
  wall : ℤ
  tz : Option ℤ
  deriving DecidableEq, Repr

/-- `datetime.combine(date_part, time_part)` (`01_Record_Shrink.py`
line 332): both inputs come from `st.date_input` / `st.time_input` and are
naive, so the combined datetime is the entered wall-clock reading with no
tzinfo. -/
def combine (wall : ℤ) : PyDatetime :=
  { wall := wall, tz := none }

/-- `dt.replace(tzinfo=off)`: attach the offset without converting the
wall-clock fields. -/
def replace_tzinfo (dt : PyDatetime) (off : ℤ) : PyDatetime :=
  { dt with tz := some off }

/-- `dt.astimezone(target)`: convert to the target offset.  A naive
datetime is interpreted in the ambient local timezone `localOff`, exactly
as Python does. -/
def astimezone (localOff : ℤ) (dt : PyDatetime) (target : ℤ) : PyDatetime :=
  let off := dt.tz.getD localOff
  { wall := dt.wall - off + target, tz := some target }

/-- `(dt if dt.tzinfo else dt.replace(tzinfo=timezone.utc)).astimezone(timezone.utc)`
(`01_Record_Shrink.py` line 351). -/
def to_dt_utc (localOff : ℤ) (dt : PyDatetime) : PyDatetime :=
  astimezone localOff (if dt.tz.isSome then dt else replace_tzinfo dt 0) 0

/-- The payload assembled by the submit handler
(`01_Record_Shrink.py` lines 360–370), restricted to the fields the
validation logic determines (the ids and notes are passed through
verbatim). -/
structure Payload where
  store_id : ℕ
  date_time : PyDatetime
  event_type : EventType
  weight_lbs : ℚ
  unit_cost : ℚ
  unit_price : ℚ
  deriving DecidableEq, Repr

/-- Outcome of a click on the submit button: either the workflow stopped
with an error message before reaching persistence, or
`insert_shrink_event` was invoked with a payload, possibly after surfacing
warning messages. -/
inductive SubmitOutcome where
  | stopped (msg : String)
  | inserted (payload : Payload) (warnings : List String)
  deriving DecidableEq, Repr

/-- Whether the outcome reached the persistence insert. -/
def SubmitOutcome.isInserted : SubmitOutcome → Bool
  | .stopped _ => false
  | .inserted _ _ => true

/-- The submit handler of `01_Record_Shrink.py` lines 330–372: combine the
entered date and time, run `validate_weight` (hard stop on failure, warning
surfaced on a non-empty message), then `validate_prices` (hard stop on
failure), normalize the datetime with `to_dt_utc`, then `validate_datetime`
— whose failure is downgraded to a warning when `role` is `"manager"` or
`"admin"` and otherwise stops the workflow — and finally call
`insert_shrink_event` with the payload. -/
def submit_shrink_event (band : Category → ℚ × ℚ) (now tol retention : ℤ)
    (role : String) (store_id : ℕ) (localOff : ℤ) (c : Category)
    (ev : EventType) (w uc up : ℚ) (wall : ℤ) : SubmitOutcome :=
  let dt := combine wall
  let vw := validate_weight band w c
  if vw.1 = false then .stopped vw.2
  else
    let warns := if vw.2 ≠ "" then [vw.2] else []
    let vp := validate_prices uc up ev
    if vp.1 = false then .stopped vp.2
    else
      let dt_utc := to_dt_utc localOff dt
      let vd := validate_datetime now tol retention dt_utc.wall
      let payload : Payload :=
        { store_id := store_id, date_time := dt_utc, event_type := ev,
          weight_lbs := w, unit_cost := uc, unit_price := up }
      if vd.1 = false then
        if role = "manager" ∨ role = "admin" then
          .inserted payload (warns ++ [vd.2 ++ " (Manager override allowed)"])
        else .stopped vd.2
      else .inserted payload warns

/-! ### Exports page (`03_Exports.py`) -/

/-- The names bound at module level in `03_Exports.py` by the time a
button handler runs: the imports at the top of the file (lines 1–6 and
35–50), the helper `fix_imports`, and the module-level assignments
(lines 54–83).  `export_and_upload` is not among them. -/
def exports_page_names : List String :=
  ["st", "pd", "sys", "os", "Path", "datetime", "timedelta", "fix_imports",
   "require_auth", "get_user_role", "get_user_store_id", "filter_events",
   "generate_csv_export", "generate_xlsx_export", "upload_to_storage",
   "get_signed_url", "lib_dir", "token", "user", "store_id", "role",
   "date_from", "date_to", "report_name", "selected_store", "rows", "df",
   "c1", "c2"]

/-- Result of evaluating one Python expression: a value, or a raised
exception carried as its type name and message. -/
inductive PyResult (α : Type) where
  | ok (a : α)
  | exc (excName msg : String)
  deriving DecidableEq, Repr

/-- Python name resolution at a call site: an unbound name raises
`NameError`. -/
def eval_name (env : List String) (n : String) : PyResult Unit :=
  if n ∈ env then .ok () else .exc "NameError" ("name " ++ n ++ " is not defined")

/-- What a click on an export button leaves on screen. -/
inductive ExportUiOutcome where
  | successShown (url : String)
  | errorShown (msg : String)
  deriving DecidableEq, Repr

/-- The Export CSV / Export XLSX button handlers of `03_Exports.py`
(lines 85–99; the two bodies are identical up to `fmt`): inside
`try`, evaluate the name `export_and_upload` and call it; on success show
the success message with the returned url, and on any exception show
"Export failed: ...".  `call` stands for what the call would return if the
name resolved, which the page's sources do not determine. -/
def export_click (env : List String) (call : Unit → PyResult String) :
    ExportUiOutcome :=
  match eval_name env "export_and_upload" with
  | .exc _ msg => .errorShown ("Export failed: " ++ msg)
  | .ok _ =>
      match call () with
      | .ok url => .successShown url
      | .exc _ msg => .errorShown ("Export failed: " ++ msg)

/-! ### Reports page (`02_Reports.py`) -/

/-- The sidebar selections on the Reports page that feed the `filters`
dict, other than the role and the user's own store: the resolved date
range, the four multiselects, and the value the store-override
`number_input` would hold (`none` when left empty). -/
structure ReportsInput where
  date_from : String
  date_to : String
  cats : List String
  cuts : List String
  ptypes : List String
  etypes : List String
  store_override : Option ℕ
  deriving DecidableEq, Repr

/-- The `filters` dict passed to `filter_events`
(`02_Reports.py` lines 97–105). -/
structure ReportFilters where
  store_id : Option ℕ
  date_from : String
  date_to : String
  category : Option (List String)
  cut_name : Option (List String)
  product_type : Option (List String)
  event_type : Option (List String)
  deriving DecidableEq, Repr

/-- An empty multiselect list is falsy in Python, so `cats or None`
becomes `None`. -/
def orNone (xs : List String) : Option (List String) :=
  if xs = [] then none else some xs

/-- Construction of the `filter_events` query on the Reports page
(`02_Reports.py` lines 89–105): the store-override input exists only for
the roles `"auditor"` and `"admin"` (`selected_store` stays `None`
otherwise), and `filters["store_id"]` is `selected_store` for those roles
and the user's own `store_id` for everyone else. -/
def reports_filters (role : String) (store_id : Option ℕ)
    (inp : ReportsInput) : ReportFilters :=
  let selected_store : Option ℕ :=
    if role = "auditor" ∨ role = "admin" then inp.store_override else none
  { store_id :=
      if role = "auditor" ∨ role = "admin" then selected_store else store_id,
    date_from := inp.date_from,
    date_to := inp.date_to,
    category := orNone inp.cats,
    cut_name := orNone inp.cuts,
    product_type := orNone inp.ptypes,
    event_type := orNone inp.etypes }

/-! ### Helper lemmas -/

/-- The submit handler always feeds `to_dt_utc` a naive datetime, which it
tags with the UTC offset while keeping the wall-clock reading. -/
theorem to_dt_utc_combine (localOff wall : ℤ) :
    to_dt_utc localOff (combine wall) = { wall := wall, tz := some 0 } := by
  simp [to_dt_utc, combine, replace_tzinfo, astimezone]

/-- Exactly when a submit click reaches `insert_shrink_event`: the weight
and price checks passed, and the datetime check passed or the role is
manager/admin. -/
theorem submit_isInserted_iff (band : Category → ℚ × ℚ) (now tol retention : ℤ)
    (role : String) (store : ℕ) (localOff : ℤ) (c : Category) (ev : EventType)
    (w uc up : ℚ) (wall : ℤ) :
    (submit_shrink_event band now tol retention role store localOff c ev w uc up
        wall).isInserted = true ↔
      (validate_weight band w c).1 = true ∧ (validate_prices uc up ev).1 = true ∧
        ((validate_datetime now tol retention
            (to_dt_utc localOff (combine wall)).wall).1 = true ∨
          role = "manager" ∨ role = "admin") := by
  simp only [submit_shrink_event]
  split
  next h1 => simp [SubmitOutcome.isInserted, h1]
  next h1 =>
    split
    next h2 => simp [SubmitOutcome.isInserted, h1, h2]
    next h2 =>
      split
      next h3 =>
        split
        next h4 => simp [SubmitOutcome.isInserted, h1, h2, h3, h4]
        next h4 => simp [SubmitOutcome.isInserted, h1, h2, h3, h4]
      next h3 => simp [SubmitOutcome.isInserted, h1, h2, h3]

/-! ### Claim theorems -/

/-- C2: `insert_shrink_event` is invoked exactly when the weight and price
checks pass and the datetime check passes or the role is privileged
(manager/admin); in particular, whenever `validate_weight` or
`validate_prices` rejects, or `validate_datetime` rejects for a
non-privileged role, the workflow stops and the insert is never called. -/
theorem C2_insert_only_if_validated (band : Category → ℚ × ℚ)
    (now tol retention : ℤ) (role : String) (store : ℕ) (localOff : ℤ)
    (c : Category) (ev : EventType) (w uc up : ℚ) (wall : ℤ) :
    (submit_shrink_event band now tol retention role store localOff c ev w uc up
        wall).isInserted = true ↔
      (validate_weight band w c).1 = true ∧ (validate_prices uc up ev).1 = true ∧
        ((validate_datetime now tol retention
            (to_dt_utc localOff (combine wall)).wall).1 = true ∨
          role = "manager" ∨ role = "admin") :=
  submit_isInserted_iff band now tol retention role store localOff c ev w uc up wall

/-- C3: for every weight below 0.001 lbs or above 500.0 lbs and every
category, `validate_weight` returns failure, whatever the per-category
typical-band table is. -/
theorem C3_absolute_bounds_reject (band : Category → ℚ × ℚ) (w : ℚ)
    (c : Category) (h : w < 1/1000 ∨ w > 500) :
    (validate_weight band w c).1 = false := by
  unfold validate_weight
  rw [if_pos h]

/-- C3 witness: instantiated at weight 600 and the Beef category. -/
theorem C3_absolute_bounds_reject_witness :
    ((600 : ℚ) < 1/1000 ∨ (600 : ℚ) > 500) ∧
      (validate_weight (fun _ => (1, 100)) 600 Category.beef).1 = false :=
  ⟨Or.inr (by norm_num),
    C3_absolute_bounds_reject (fun _ => (1, 100)) 600 Category.beef
      (Or.inr (by norm_num))⟩

/-- C6: for every event type, a cost of zero together with a price of zero
is rejected by `validate_prices`, and a submission carrying those values is
never persisted, whatever the other inputs are. -/
theorem C6_zero_prices_reject (ev : EventType) :
    (validate_prices 0 0 ev).1 = false ∧
    ∀ (band : Category → ℚ × ℚ) (now tol retention : ℤ) (role : String)
      (store : ℕ) (localOff : ℤ) (c : Category) (w : ℚ) (wall : ℤ),
      (submit_shrink_event band now tol retention role store localOff c ev w 0 0
          wall).isInserted = false := by
  have hvp : (validate_prices 0 0 ev).1 = false := by
    unfold validate_prices
    rw [if_neg, if_pos ⟨rfl, rfl⟩]
    push_neg
    exact ⟨le_refl 0, le_refl 0⟩
  refine ⟨hvp, fun band now tol retention role store localOff c w wall => ?_⟩
  rw [← Bool.not_eq_true, submit_isInserted_iff]
  intro hins
  rw [hvp] at hins
  exact Bool.false_ne_true hins.2.1

/-- C7: for a markdown event a price below cost is expected:
`validate_prices 5 3 Markdown` is plain success. -/
theorem C7_markdown_price_below_cost :
    validate_prices 5 3 EventType.markdown = (true, "") := by
  unfold validate_prices
  norm_num

/-- C1 counterexample: a timestamp materially in the future (2000, against
now = 1000 and tolerance 10, so `validate_datetime` fails with the future
message) is NOT rejected for a manager: the submit handler downgrades the
failure to a warning on role alone and the event is persisted. -/
theorem C1_counterexample :
    validate_datetime 1000 10 100 2000 = (false, "Timestamp is in the future") ∧
    (submit_shrink_event (fun _ => (1, 100)) 1000 10 100 "manager" 7 0
        Category.beef EventType.spoilage 50 1 2 2000).isInserted = true := by
  constructor
  · decide
  · rw [submit_isInserted_iff]
    refine ⟨?_, ?_, Or.inr (Or.inl rfl)⟩
    · unfold validate_weight
      rw [if_neg (by norm_num), if_neg (by norm_num)]
    · unfold validate_prices
      rw [if_neg (by norm_num), if_neg (by norm_num)]

/-- C1 amended: when `validate_datetime` fails — whether because the
timestamp is in the future or because it is past the retention cutoff —
the rejection is downgraded to a warning for the roles manager and admin
and the event is persisted; for every other role any datetime failure
stops the workflow with the validator's message and nothing is
persisted. -/
theorem C1_amended_role_override (band : Category → ℚ × ℚ)
    (now tol retention : ℤ) (role : String) (store : ℕ) (localOff : ℤ)
    (c : Category) (ev : EventType) (w uc up : ℚ) (wall : ℤ)
    (hw : (validate_weight band w c).1 = true)
    (hp : (validate_prices uc up ev).1 = true)
    (hd : (validate_datetime now tol retention
        (to_dt_utc localOff (combine wall)).wall).1 = false) :
    (role = "manager" ∨ role = "admin" →
      (submit_shrink_event band now tol retention role store localOff c ev w uc
          up wall).isInserted = true) ∧
    (role ≠ "manager" ∧ role ≠ "admin" →
      submit_shrink_event band now tol retention role store localOff c ev w uc
          up wall
        = .stopped (validate_datetime now tol retention
            (to_dt_utc localOff (combine wall)).wall).2) := by
  constructor
  · intro hrole
    rw [submit_isInserted_iff]
    exact ⟨hw, hp, Or.inr hrole⟩
  · intro hrole
    simp only [submit_shrink_event]
    rw [if_neg (by simp [hw]), if_neg (by simp [hp]), if_pos (by simp [hd]),
      if_neg (by tauto)]

/-- C1 amendment witness: for the non-privileged role "associate", a future
timestamp stops the workflow with the future message. -/
theorem C1_amended_role_override_witness :
    submit_shrink_event (fun _ => (1, 100)) 1000 10 100 "associate" 7 0
        Category.beef EventType.spoilage 50 1 2 2000
      = .stopped (validate_datetime 1000 10 100
          (to_dt_utc 0 (combine 2000)).wall).2 :=
  (C1_amended_role_override (fun _ => (1, 100)) 1000 10 100 "associate" 7 0
      Category.beef EventType.spoilage 50 1 2 2000
      (by unfold validate_weight
          rw [if_neg (by norm_num), if_neg (by norm_num)])
      (by unfold validate_prices
          rw [if_neg (by norm_num), if_neg (by norm_num)])
      (by decide)).2 ⟨by decide, by decide⟩

/-- C4: provided the category's typical band lies inside the absolute
bounds (as any sane band table does), `validate_weight` returns plain
success (ok, empty message) on every weight inside the band, and
success-with-warning (ok, non-empty message) on every weight outside the
band but within 0.001–500.0 lbs; in the warning case the submission still
proceeds: whenever the price and datetime checks pass, the event is
persisted with the warning surfaced. -/
theorem C4_band_success_and_warning (band : Category → ℚ × ℚ) (w : ℚ)
    (c : Category) (hlo : 1/1000 ≤ (band c).1) (hhi : (band c).2 ≤ 500) :
    ((band c).1 ≤ w ∧ w ≤ (band c).2 → validate_weight band w c = (true, "")) ∧
    (1/1000 ≤ w ∧ w ≤ 500 ∧ (w < (band c).1 ∨ w > (band c).2) →
      (validate_weight band w c).1 = true ∧ (validate_weight band w c).2 ≠ "" ∧
      ∀ (now tol retention : ℤ) (role : String) (store : ℕ) (localOff : ℤ)
        (ev : EventType) (uc up : ℚ) (wall : ℤ),
        (validate_prices uc up ev).1 = true →
        (validate_datetime now tol retention
            (to_dt_utc localOff (combine wall)).wall).1 = true →
        submit_shrink_event band now tol retention role store localOff c ev w uc
            up wall
          = .inserted
              { store_id := store, date_time := { wall := wall, tz := some 0 },
                event_type := ev, weight_lbs := w, unit_cost := uc,
                unit_price := up }
              [(validate_weight band w c).2]) := by
  constructor
  · rintro ⟨h1, h2⟩
    have habs : ¬ (w < 1/1000 ∨ w > 500) := by
      push_neg
      exact ⟨hlo.trans h1, h2.trans hhi⟩
    have hband : ¬ (w < (band c).1 ∨ w > (band c).2) := by
      push_neg
      exact ⟨h1, h2⟩
    unfold validate_weight
    rw [if_neg habs, if_neg hband]
  · rintro ⟨ha, hb, hc⟩
    have habs : ¬ (w < 1/1000 ∨ w > 500) := by
      push_neg
      exact ⟨ha, hb⟩
    have hvw : validate_weight band w c
        = (true, "Weight is unusual for this category") := by
      unfold validate_weight
      rw [if_neg habs, if_pos hc]
    refine ⟨by rw [hvw], by rw [hvw]; exact fun h => by simp at h, ?_⟩
    intro now tol retention role store localOff ev uc up wall hp hd
    have hd2 : (validate_datetime now tol retention wall).1 = true := by
      simpa [to_dt_utc_combine] using hd
    have hdne : ¬ ((validate_datetime now tol retention wall).1 = false) := by
      simp [hd2]
    have hsne : "Weight is unusual for this category" ≠ "" := by decide
    simp only [submit_shrink_event, hvw, to_dt_utc_combine, hp, hd]
    rw [if_neg hdne, if_pos hsne]
    simp

/-- C4 witness: with the band 1–100 lbs for every category, weight 50 in
Beef is plain success; weight 200 draws a warning yet a submission with
valid prices and timestamp is persisted. -/
theorem C4_band_success_and_warning_witness :
    validate_weight (fun _ => (1, 100)) 50 Category.beef = (true, "") ∧
    (validate_weight (fun _ => (1, 100)) 200 Category.beef).2 ≠ "" ∧
    submit_shrink_event (fun _ => (1, 100)) 1000 10 100 "associate" 7 0
        Category.beef EventType.spoilage 200 1 2 950
      = .inserted
          { store_id := 7, date_time := { wall := 950, tz := some 0 },
            event_type := EventType.spoilage, weight_lbs := 200, unit_cost := 1,
            unit_price := 2 }
          [(validate_weight (fun _ => (1, 100)) 200 Category.beef).2] := by
  have hin := C4_band_success_and_warning (fun _ => ((1 : ℚ), 100)) 50
    Category.beef (by norm_num) (by norm_num)
  have hout := C4_band_success_and_warning (fun _ => ((1 : ℚ), 100)) 200
    Category.beef (by norm_num) (by norm_num)
  have h2 := hout.2 ⟨by norm_num, by norm_num, by norm_num⟩
  refine ⟨hin.1 ⟨by norm_num, by norm_num⟩, h2.2.1, ?_⟩
  refine h2.2.2 1000 10 100 "associate" 7 0 EventType.spoilage 1 2 950 ?_ ?_
  · unfold validate_prices
    rw [if_neg (by norm_num), if_neg (by norm_num)]
  · decide

/-- C5: every click on an export button takes the error branch: the name
`export_and_upload` is bound nowhere on the Exports page, so the call
raises `NameError` inside the `try`, the user always sees the
export-failed message, and the success message is unreachable — whatever
the call would have returned had the name resolved. -/
theorem C5_export_button_always_errors (call : Unit → PyResult String) :
    export_click exports_page_names call
      = .errorShown "Export failed: name export_and_upload is not defined" ∧
    ∀ url, export_click exports_page_names call ≠ .successShown url := by
  have hmem : "export_and_upload" ∉ exports_page_names := by decide
  have hclick : export_click exports_page_names call
      = .errorShown "Export failed: name export_and_upload is not defined" := by
    unfold export_click eval_name
    rw [if_neg hmem]
    rfl
  exact ⟨hclick, fun url h => by rw [hclick] at h; exact ExportUiOutcome.noConfusion h⟩

/-- C8: the occurredAt timestamp is normalized to UTC exactly as the
source does it: the combined date/time is naive (the tz-aware branch of
the conditional is never taken), `to_dt_utc` tags the entered wall-clock
reading with UTC without shifting it — independently of the ambient local
timezone — and any persisted payload carries exactly that datetime in its
date_time field. -/
theorem C8_utc_normalization (localOff wall : ℤ) :
    (combine wall).tz.isSome = false ∧
    to_dt_utc localOff (combine wall) = { wall := wall, tz := some 0 } ∧
    ∀ (band : Category → ℚ × ℚ) (now tol retention : ℤ) (role : String)
      (store : ℕ) (c : Category) (ev : EventType) (w uc up : ℚ)
      (p : Payload) (warns : List String),
      submit_shrink_event band now tol retention role store localOff c ev w uc
          up wall = .inserted p warns →
      p.date_time = { wall := wall, tz := some 0 } := by
  refine ⟨rfl, to_dt_utc_combine localOff wall, ?_⟩
  intro band now tol retention role store c ev w uc up p warns h
  simp only [submit_shrink_event, to_dt_utc_combine] at h
  split at h
  · exact SubmitOutcome.noConfusion h
  · split at h
    · exact SubmitOutcome.noConfusion h
    · split at h
      · split at h
        · cases h
          rfl
        · exact SubmitOutcome.noConfusion h
      · cases h
        rfl

/-- C8 witness: a concrete in-window submission persists with date_time
equal to the entered wall-clock reading tagged UTC, even under a nonzero
local offset. -/
theorem C8_utc_normalization_witness :
    (submit_shrink_event (fun _ => (1, 100)) 1000 10 100 "associate" 7 300
        Category.beef EventType.spoilage 50 1 2 950
      = SubmitOutcome.inserted
          { store_id := 7, date_time := { wall := 950, tz := some 0 },
            event_type := EventType.spoilage, weight_lbs := 50, unit_cost := 1,
            unit_price := 2 }
          []) ∧
    Payload.date_time
        { store_id := 7, date_time := { wall := 950, tz := some 0 },
          event_type := EventType.spoilage, weight_lbs := 50, unit_cost := 1,
          unit_price := 2 }
      = { wall := 950, tz := some 0 } := by
  have hsub : submit_shrink_event (fun _ => ((1 : ℚ), 100)) 1000 10 100
      "associate" 7 300 Category.beef EventType.spoilage 50 1 2 950
      = SubmitOutcome.inserted
          { store_id := 7, date_time := { wall := 950, tz := some 0 },
            event_type := EventType.spoilage, weight_lbs := 50, unit_cost := 1,
            unit_price := 2 }
          [] := by
    have hw : validate_weight (fun _ => ((1 : ℚ), 100)) 50 Category.beef
        = (true, "") := by
      unfold validate_weight
      rw [if_neg (by norm_num), if_neg (by norm_num)]
    have hp : validate_prices 1 2 EventType.spoilage = (true, "") := by
      unfold validate_prices
      rw [if_neg (by norm_num), if_neg (by norm_num)]
    simp only [submit_shrink_event, hw, hp, to_dt_utc_combine]
    norm_num
    decide
  exact ⟨hsub,
    (C8_utc_normalization 300 950).2.2 (fun _ => (1, 100)) 1000 10 100
      "associate" 7 Category.beef EventType.spoilage 50 1 2 _ _ hsub⟩

/-- C9: for every non-auditor non-admin role the Reports query is scoped
to the user's own store — the store override cannot influence the filters
— so two users with the same role and store making identical filter
selections issue identical queries regardless of any override input. -/
theorem C9_reports_store_scoping (role : String) (sid : Option ℕ)
    (h : role ≠ "auditor" ∧ role ≠ "admin") (inp1 inp2 : ReportsInput)
    (hsel : inp1.date_from = inp2.date_from ∧ inp1.date_to = inp2.date_to ∧
      inp1.cats = inp2.cats ∧ inp1.cuts = inp2.cuts ∧
      inp1.ptypes = inp2.ptypes ∧ inp1.etypes = inp2.etypes) :
    (reports_filters role sid inp1).store_id = sid ∧
    reports_filters role sid inp1 = reports_filters role sid inp2 := by
  have hro : ¬ (role = "auditor" ∨ role = "admin") := by tauto
  obtain ⟨d1, d2, d3, d4, d5, d6⟩ := hsel
  constructor
  · simp [reports_filters, hro]
  · simp [reports_filters, hro, d1, d2, d3, d4, d5, d6]

/-- C9 witness: a lead at store 4 gets store_id 4 in the filters, and two
override inputs that differ do not change the query. -/
theorem C9_reports_store_scoping_witness :
    (reports_filters "lead" (some 4)
        { date_from := "2025-01-01", date_to := "2025-01-08", cats := ["Beef"],
          cuts := [], ptypes := [], etypes := [],
          store_override := none }).store_id = some 4 ∧
    reports_filters "lead" (some 4)
        { date_from := "2025-01-01", date_to := "2025-01-08", cats := ["Beef"],
          cuts := [], ptypes := [], etypes := [], store_override := none }
      = reports_filters "lead" (some 4)
          { date_from := "2025-01-01", date_to := "2025-01-08",
            cats := ["Beef"], cuts := [], ptypes := [], etypes := [],
            store_override := some 9 } :=
  C9_reports_store_scoping "lead" (some 4) ⟨by decide, by decide⟩ _ _
    ⟨rfl, rfl, rfl, rfl, rfl, rfl⟩

/-- C10: each validator is deterministic and stateless: executed twice on
identical inputs, the first and second calls return identical (ok,
message) pairs — the validators are functions of their arguments alone,
with no effect a later call could observe. -/
theorem C10_validators_deterministic (band : Category → ℚ × ℚ) (w : ℚ)
    (c : Category) (uc up : ℚ) (ev : EventType) (now tol retention ts : ℤ) :
    (validate_weight band w c, validate_weight band w c).1
        = (validate_weight band w c, validate_weight band w c).2 ∧
    (validate_prices uc up ev, validate_prices uc up ev).1
        = (validate_prices uc up ev, validate_prices uc up ev).2 ∧
    (validate_datetime now tol retention ts,
        validate_datetime now tol retention ts).1
      = (validate_datetime now tol retention ts,
          validate_datetime now tol retention ts).2 :=
  ⟨rfl, rfl, rfl⟩

end MeatShrink
